import Mathlib

/-!
Shallow embedding of `src/calculator.py`, an interactive four-function
command-line calculator, together with theorems checking its specification.

Python floats are modelled as rational numbers (`ℚ`). Standard input is
modelled as a list of events: text lines and keyboard interrupts delivered
during a blocking read; an exhausted event list stands for end-of-file,
on which Python's `input()` raises `EOFError`. Everything printed to
standard output (prompts included, since `input(prompt)` echoes its
argument) is collected as a list of strings.
-/

attribute [local semireducible] Rat.add Rat.mul Rat.inv Rat.sub Rat.ofScientific

namespace Calculator

/-- The ASCII whitespace characters removed by Python's `str.strip()`. -/
def isPySpace (c : Char) : Bool :=
  c = ' ' || c = '\t' || c = '\n' || c = '\x0d' || c = '\x0b' || c = '\x0c'

/-- Python `str.strip()`: remove leading and trailing whitespace. -/
def pyStrip (s : String) : String :=
  String.mk (((s.toList.dropWhile isPySpace).reverse.dropWhile isPySpace).reverse)

/-- Python `str.lower()`, restricted to ASCII letters; sufficient for the
exit keywords and answers this program compares against. -/
def pyLower (s : String) : String := String.mk (s.toList.map Char.toLower)

/-- Numeric value of a list of decimal digit characters. -/
def natOfDigits (ds : List Char) : ℕ :=
  ds.foldl (fun acc c => 10 * acc + (c.toNat - 48)) 0

/-- Optional leading sign of a numeral: whether it was a minus, and the rest. -/
def parseSign : List Char → Bool × List Char
  | '+' :: cs => (false, cs)
  | '-' :: cs => (true, cs)
  | cs => (false, cs)

/-- Scaling `q * 10 ^ e` for an integer exponent `e`. -/
def scalePow10 (q : ℚ) (e : ℤ) : ℚ :=
  if 0 ≤ e then q * mkRat ((10 : ℕ) ^ e.toNat : ℕ) 1
  else q / mkRat ((10 : ℕ) ^ (-e).toNat : ℕ) 1

/-- Exponent suffix of a float literal: either nothing, or `e`/`E`, an
optional sign and one or more digits, consuming the whole remainder. -/
def parseExpPart : List Char → Option ℤ
  | [] => some 0
  | c :: cs =>
    if c = 'e' || c = 'E' then
      let sr := parseSign cs
      let dr := sr.2.span Char.isDigit
      if dr.1.isEmpty || !dr.2.isEmpty then none
      else some (if sr.1 then -(natOfDigits dr.1 : ℤ) else (natOfDigits dr.1 : ℤ))
    else none

/-- Python's built-in `float()` on an already-stripped string, modelled for
finite decimal numerals: an optional sign, then digits with an optional
decimal point (at least one digit overall), then an optional exponent —
exactly the "optionally signed, optional decimal point, optional exponent"
numerals of the specification. `inf`/`nan` and digit-group underscores are
outside the model. -/
def pyFloat (s : String) : Option ℚ :=
  let sr := parseSign s.toList
  let ir := sr.2.span Char.isDigit
  match ir.2 with
  | '.' :: cs3 =>
    let fr := cs3.span Char.isDigit
    if ir.1.isEmpty && fr.1.isEmpty then none
    else
      (parseExpPart fr.2).map fun e =>
        let mag := scalePow10
          (mkRat (natOfDigits ir.1 : ℕ) 1 + mkRat (natOfDigits fr.1 : ℕ) (10 ^ fr.1.length)) e
        if sr.1 then -mag else mag
  | _ =>
    if ir.1.isEmpty then none
    else
      (parseExpPart ir.2).map fun e =>
        let mag := scalePow10 (mkRat (natOfDigits ir.1 : ℕ) 1) e
        if sr.1 then -mag else mag

/-- The exit keywords accepted case-insensitively at every input site
(lines 27 and 57 of the source): `q`, `quit`, `exit`, and the Chinese
word `退出` ("quit"). -/
def exitKeywords : List String := ["q", "quit", "exit", "退出"]

/-- The operator whitelist (line 49 of the source). -/
def valid_operators : List String := ["+", "-", "*", "/"]

/-- Error message for a malformed numeral (line 37). -/
def numberErrMsg : String := "❌ 错误：请输入有效的数字（支持整数/小数）！输入q可退出程序"

/-- Message printed when the number reader sees an exit keyword (line 28). -/
def numberExitMsg : String := "👋 你选择退出数字输入，程序即将结束！"

/-- Message printed on a keyboard interrupt inside a reader (lines 40, 69). -/
def interruptMsg : String := "\n⚠️ 你手动终止了输入，程序即将结束！"

/-- Prompt of the operator reader (line 54). -/
def opPrompt : String := "请输入运算符（+、-、*、/），输入q可退出："

/-- Message printed when the operator reader sees an exit keyword (line 58). -/
def opExitMsg : String := "👋 你选择退出，程序即将结束！"

/-- Error message for an invalid operator token (line 65); the f-string
interpolates the Python list `valid_operators`. -/
def opErrMsg : String := "❌ 错误：无效的运算符！仅支持 ['+', '-', '*', '/']"

/-- The division-by-zero error value returned by `calculate` (line 89). -/
def divZeroMsg : String := "❌ 错误：除数不能为0！"

/-- Prompt for the first operand (line 103). -/
def prompt1 : String := "请输入第一个数字："

/-- Prompt for the second operand (line 113). -/
def prompt2 : String := "请输入第二个数字："

/-- The continue question (line 133). -/
def continuePrompt : String := "是否继续计算？(y/n，默认y)："

/-- Message printed on a keyboard interrupt at the continue question (line 139). -/
def continueInterruptMsg : String := "\n⚠️ 你手动终止了操作，程序即将结束！"

/-- The farewell printed when the user answers the continue question
negatively (line 136). -/
def farewellMsg : String := "👋 感谢使用计算器，再见！"

/-- The top-level report (line 148) for the `EOFError` that `input()`
raises at end of input: `str(e)` is "EOF when reading a line". -/
def eofReport : String := "\n❌ 程序发生未预期错误：EOF when reading a line"

/-- The separator printed by `print("=" * 30)` (lines 96 and 99). -/
def sepLine : String := String.mk (List.replicate 30 '=')

/-- The startup banner (lines 96-99). -/
def banner : List String :=
  [sepLine, "     简易命令行计算器（优化版）", "📌 支持 + - * / 运算，输入q可随时退出", sepLine]

/-- One event on standard input: a line of text, or a keyboard interrupt
delivered during the blocking read. -/
inductive ReadEvent where
  | line (s : String)
  | interrupt
deriving DecidableEq

/-- How one reader call ends: a parsed value, Python `None` (exit keyword
or keyboard interrupt), or an uncaught `EOFError` from `input()`. -/
inductive Outcome (α : Type) where
  | value (a : α)
  | exitNone
  | eofError
deriving DecidableEq

/-- A reader call's printed lines, outcome, and the unconsumed input. -/
structure ReadResult (α : Type) where
  prints : List String
  outcome : Outcome α
  rest : List ReadEvent
deriving DecidableEq

/-- Embedding of `get_valid_number` (lines 15-41): loop over input lines;
an exit keyword (checked case-insensitively on the stripped line) returns
`None`; a line parsing as a float returns its value; a `ValueError` prints
an error and re-prompts; a keyboard interrupt returns `None`. `input()` at
end of input raises `EOFError`, which no `except` clause here catches. -/
def get_valid_number (prompt : String) : List ReadEvent → ReadResult ℚ
  | [] => ⟨[prompt], .eofError, []⟩
  | .interrupt :: rest => ⟨[prompt, interruptMsg], .exitNone, rest⟩
  | .line s :: rest =>
    let t := pyStrip s
    if pyLower t ∈ exitKeywords then ⟨[prompt, numberExitMsg], .exitNone, rest⟩
    else
      match pyFloat t with
      | some q => ⟨[prompt], .value q, rest⟩
      | none =>
        let r := get_valid_number prompt rest
        ⟨prompt :: numberErrMsg :: r.prints, r.outcome, r.rest⟩

/-- Embedding of `get_valid_operator` (lines 43-70): loop over input lines;
an exit keyword returns `None`; a stripped line in the whitelist is
returned verbatim; anything else prints an error listing the whitelist and
re-prompts; a keyboard interrupt returns `None`; end of input raises an
uncaught `EOFError`. -/
def get_valid_operator : List ReadEvent → ReadResult String
  | [] => ⟨[opPrompt], .eofError, []⟩
  | .interrupt :: rest => ⟨[opPrompt, interruptMsg], .exitNone, rest⟩
  | .line s :: rest =>
    let op := pyStrip s
    if pyLower op ∈ exitKeywords then ⟨[opPrompt, opExitMsg], .exitNone, rest⟩
    else if op ∈ valid_operators then ⟨[opPrompt], .value op, rest⟩
    else
      let r := get_valid_operator rest
      ⟨opPrompt :: opErrMsg :: r.prints, r.outcome, r.rest⟩

/-- A value `calculate` can produce: a number, the division error string,
or — when every branch falls through — Python's implicit `None`. -/
inductive CalcResult where
  | num (q : ℚ)
  | err (msg : String)
  | noneVal
deriving DecidableEq

/-- Embedding of `calculate` (lines 72-90): the four operator branches; a
divisor of magnitude below `1e-9` yields the division-by-zero message
instead of dividing; an operator matching no branch falls off the end of
the function, which in Python returns `None`. -/
def calculate (num1 : ℚ) (op : String) (num2 : ℚ) : CalcResult :=
  if op = "+" then .num (num1 + num2)
  else if op = "-" then .num (num1 - num2)
  else if op = "*" then .num (num1 * num2)
  else if op = "/" then
    if |num2| < 1 / 1000000000 then .err divZeroMsg
    else .num (num1 / num2)
  else .noneVal

/-- Multiplicity of `p` in `n`, computed with explicit fuel. -/
def factorMultAux (p : ℕ) : ℕ → ℕ → ℕ
  | 0, _ => 0
  | fuel + 1, n => if 2 ≤ p ∧ n % p = 0 ∧ n ≠ 0 then factorMultAux p fuel (n / p) + 1 else 0

/-- Multiplicity of `p` in `n`. -/
def factorMult (p n : ℕ) : ℕ := factorMultAux p n n

/-- The decimal representation of `f`, left-padded with zeros to `k` digits. -/
def padDigits (k : ℕ) (f : ℕ) : String :=
  String.mk (List.replicate (k - (toString f).length) '0' ++ (toString f).toList)

/-- Python `str()` of a float, modelled for values whose reduced
denominator is a product of twos and fives (every value this program
prints): an integral value renders with a trailing `.0`, any other as its
exact terminating decimal expansion — Python's shortest round-trip
representation in this program's range of values. -/
def pyFloatStr (q : ℚ) : String :=
  if q.den = 1 then toString q.num ++ ".0"
  else
    let k := max (factorMult 2 q.den) (factorMult 5 q.den)
    let scaled := q.num.natAbs * 10 ^ k / q.den
    (if q.num < 0 then "-" else "")
      ++ toString (scaled / 10 ^ k) ++ "." ++ padDigits k (scaled % 10 ^ k)

/-- Round to the nearest integer, ties to the even neighbour — Python 3's
`round`. -/
def roundHalfEven (q : ℚ) : ℤ :=
  let f := q.floor
  if q - (f : ℚ) < 1 / 2 then f
  else if (1 : ℚ) / 2 < q - (f : ℚ) then f + 1
  else if f % 2 = 0 then f else f + 1

/-- Python `round(q, 6)`. -/
def pyRound6 (q : ℚ) : ℚ := mkRat (roundHalfEven (q * 1000000)) 1000000

/-- Result formatting (lines 120-126): a float result with integral value
is converted to `int` before printing; any other float is rounded to 6
decimal places; a string result (the division error) or `None` passes
through unchanged, as rendered by the f-string on line 129. -/
def formatResult : CalcResult → String
  | .num q => if q.den = 1 then toString q.num else pyFloatStr (pyRound6 q)
  | .err m => m
  | .noneVal => "None"

/-- The echoed result line (line 129): the operands are interpolated with
Python float formatting, the result as produced by lines 120-126. -/
def resultLine (num1 : ℚ) (op : String) (num2 : ℚ) (result : CalcResult) : String :=
  "\n✅ 计算结果：" ++ pyFloatStr num1 ++ " " ++ op ++ " " ++ pyFloatStr num2
    ++ " = " ++ formatResult result ++ "\n"

/-- Outcome of the continue question (lines 131-140), after the prompt
itself has been printed: continue with the remaining input, stop (negative
answer or keyboard interrupt), or an uncaught `EOFError`. -/
inductive ContOut where
  | goOn (prints : List String) (rest : List ReadEvent)
  | stop (prints : List String)
  | eofStop (prints : List String)
deriving DecidableEq

/-- The continue question (lines 131-140): only `n`, `no` or `否` (after
strip and lower) stops; a keyboard interrupt stops with its message; any
other answer — the empty line included — continues. -/
def askContinue : List ReadEvent → ContOut
  | [] => .eofStop []
  | .interrupt :: _ => .stop [continueInterruptMsg]
  | .line s :: rest =>
    if pyLower (pyStrip s) ∈ ["n", "no", "否"] then .stop [farewellMsg]
    else .goOn [] rest

/-- How the session loop of `main_calculator` ends: a normal `break`, or
an `EOFError` escaping the loop; either way it carries everything printed. -/
inductive LoopOut where
  | done (prints : List String)
  | eofEscape (prints : List String)
deriving DecidableEq

/-- The `while True` loop of `main_calculator` (lines 101-140): read the
first operand, the operator and the second operand — each `None` breaks
the loop — then evaluate, print the echoed result line and ask whether to
continue. Fuel bounds the number of iterations; every iteration consumes
at least four input events, so `events.length + 1` fuel never runs out. -/
def loopCalc : ℕ → List ReadEvent → LoopOut
  | 0, _ => .done []
  | fuel + 1, events =>
    let r1 := get_valid_number prompt1 events
    match r1.outcome with
    | .eofError => .eofEscape r1.prints
    | .exitNone => .done r1.prints
    | .value num1 =>
      let r2 := get_valid_operator r1.rest
      match r2.outcome with
      | .eofError => .eofEscape (r1.prints ++ r2.prints)
      | .exitNone => .done (r1.prints ++ r2.prints)
      | .value op =>
        let r3 := get_valid_number prompt2 r2.rest
        match r3.outcome with
        | .eofError => .eofEscape (r1.prints ++ r2.prints ++ r3.prints)
        | .exitNone => .done (r1.prints ++ r2.prints ++ r3.prints)
        | .value num2 =>
          let pre := r1.prints ++ r2.prints ++ r3.prints
            ++ [resultLine num1 op num2 (calculate num1 op num2), continuePrompt]
          match askContinue r3.rest with
          | .eofStop ps => .eofEscape (pre ++ ps)
          | .stop ps => .done (pre ++ ps)
          | .goOn ps rest2 =>
            match loopCalc fuel rest2 with
            | .done qs => .done (pre ++ ps ++ qs)
            | .eofEscape qs => .eofEscape (pre ++ ps ++ qs)

/-- Embedding of `main_calculator` (lines 92-140): print the banner, then
run the session loop. -/
def main_calculator (events : List ReadEvent) : LoopOut :=
  match loopCalc (events.length + 1) events with
  | .done ps => .done (banner ++ ps)
  | .eofEscape ps => .eofEscape (banner ++ ps)

/-- The process's whole observable behaviour: output and exit status. -/
structure RunResult where
  output : List String
  exitCode : ℕ
deriving DecidableEq

/-- Embedding of the entry point (lines 143-151): `main_calculator` runs
under `try`; any escaping `Exception` — the `EOFError` in particular — is
caught once and reported with its description; the `finally` block calls
`sys.exit(0)`, so the status code is 0 on every path. -/
def run (events : List ReadEvent) : RunResult :=
  match main_calculator events with
  | .done ps => ⟨ps, 0⟩
  | .eofEscape ps => ⟨ps ++ [eofReport], 0⟩

/-- Whether `pat` occurs as a contiguous substring of `s`. -/
def containsStr (s pat : String) : Bool :=
  (List.range (s.toList.length + 1)).any fun i => pat.toList.isPrefixOf (s.toList.drop i)

end Calculator

namespace Calculator

/-- A non-exit line that parses makes the number reader return its value. -/
theorem number_reader_value (p s : String) (q : ℚ) (rest : List ReadEvent)
    (he : pyLower (pyStrip s) ∉ exitKeywords) (hp : pyFloat (pyStrip s) = some q) :
    get_valid_number p (.line s :: rest) = ⟨[p], .value q, rest⟩ := by
  simp [get_valid_number, he, hp]

/-- A line stripping to a whitelisted operator is returned verbatim. -/
theorem operator_reader_value (s : String) (rest : List ReadEvent)
    (h : pyStrip s ∈ valid_operators) :
    get_valid_operator (.line s :: rest) = ⟨[opPrompt], .value (pyStrip s), rest⟩ := by
  have hx := (show ∀ t ∈ valid_operators, pyLower t ∉ exitKeywords from by decide) _ h
  simp [get_valid_operator, hx, h]

/-- C1: for all operands, `calculate a "/" b` returns the division-by-zero
error value exactly when `|b| < 1e-9`, and the quotient `a / b` otherwise;
the error is the reportable string value `divZeroMsg`, not a crash, and
the threshold is strict: a divisor of magnitude exactly `1e-9` or larger
is divided normally. -/
theorem div_threshold (a b : ℚ) :
    (|b| < 1 / 1000000000 → calculate a "/" b = .err divZeroMsg) ∧
    (1 / 1000000000 ≤ |b| → calculate a "/" b = .num (a / b)) := by
  constructor
  · intro h
    unfold calculate
    rw [if_neg (by decide), if_neg (by decide), if_neg (by decide), if_pos rfl, if_pos h]
  · intro h
    unfold calculate
    rw [if_neg (by decide), if_neg (by decide), if_neg (by decide), if_pos rfl,
      if_neg (not_lt.mpr h)]

/-- C1 witness: dividing by `0` reports the error; dividing by exactly
`1e-9` divides normally. -/
theorem div_threshold_witness :
    calculate 5 "/" 0 = .err divZeroMsg ∧
    calculate 1 "/" (1 / 1000000000) = .num (1 / (1 / 1000000000)) :=
  ⟨(div_threshold 5 0).1 (by decide), (div_threshold 1 (1 / 1000000000)).2 (by decide)⟩

/-- C9: an operator outside the whitelist falls through every branch of
`calculate`, which therefore returns Python's implicit `None` rather than
a number or an error string; the evaluator is only meaningful for
operators validated by the operator reader. -/
theorem unknown_op_none (op : String) (h : op ∉ valid_operators) (a b : ℚ) :
    calculate a op b = .noneVal := by
  simp only [valid_operators, List.mem_cons, List.not_mem_nil, or_false, not_or] at h
  obtain ⟨h1, h2, h3, h4⟩ := h
  simp [calculate, h1, h2, h3, h4]

/-- C9 witness: the `%` operator produces the `None` result. -/
theorem unknown_op_none_witness : calculate 2 "%" 3 = .noneVal :=
  unknown_op_none "%" (by decide) 2 3

end Calculator

namespace Calculator

/-- C2 counterexample: in the session with inputs `3`, `+`, `4` and
continue answer `n`, no printed line contains the text `3 + 4 = 7`: the
f-string on line 129 interpolates the operands as Python floats, so the
result line reads `3.0 + 4.0 = 7`. -/
theorem session_3_plus_4_counterexample :
    ¬ ∃ l ∈ (run [ReadEvent.line "3", ReadEvent.line "+", ReadEvent.line "4",
        ReadEvent.line "n"]).output, containsStr l "3 + 4 = 7" = true := by
  decide

/-- C2 amended: the session with inputs `3`, `+`, `4` and continue answer
`n` prints a line containing `3.0 + 4.0 = 7` — the operands echoed in
Python float notation — and then terminates with exit code 0. -/
theorem session_3_plus_4_amended :
    (∃ l ∈ (run [ReadEvent.line "3", ReadEvent.line "+", ReadEvent.line "4",
        ReadEvent.line "n"]).output, containsStr l "3.0 + 4.0 = 7" = true) ∧
    (run [ReadEvent.line "3", ReadEvent.line "+", ReadEvent.line "4",
        ReadEvent.line "n"]).exitCode = 0 := by
  decide

/-- C3: a numeric result whose value is an integer is displayed without a
fractional part (`10.0` displays as `10`); any other numeric result is
displayed rounded to 6 decimal places (`1/3` displays as `0.333333`). -/
theorem format_result_spec :
    (∀ q : ℚ, q.den = 1 → formatResult (.num q) = toString q.num) ∧
    (∀ q : ℚ, q.den ≠ 1 → formatResult (.num q) = pyFloatStr (pyRound6 q)) ∧
    formatResult (.num 10) = "10" ∧ formatResult (.num (1 / 3)) = "0.333333" :=
  ⟨fun q h => by simp [formatResult, h], fun q h => by simp [formatResult, h],
   by decide, by decide⟩

/-- C3 witness: the integral case at `7` and the rounding case at `5/2`. -/
theorem format_result_spec_witness :
    formatResult (.num 7) = toString (7 : ℚ).num ∧
    formatResult (.num (5 / 2)) = pyFloatStr (pyRound6 (5 / 2)) :=
  ⟨format_result_spec.1 7 (by decide), format_result_spec.2.1 (5 / 2) (by decide)⟩

/-- C4: on any run of lines that neither parse as numerals nor are exit
keywords, followed by one line whose stripped content parses, the number
reader emits exactly one error message per invalid line (each after a
fresh prompt), never returns a value for an invalid line, and finally
returns exactly the parse of the last line, leaving later input unread. -/
theorem number_reader_retries (p : String) (bad : List String) (good : String) (q : ℚ)
    (rest : List ReadEvent)
    (hbad : ∀ s ∈ bad, pyLower (pyStrip s) ∉ exitKeywords ∧ pyFloat (pyStrip s) = none)
    (hge : pyLower (pyStrip good) ∉ exitKeywords)
    (hgp : pyFloat (pyStrip good) = some q) :
    get_valid_number p (bad.map ReadEvent.line ++ ReadEvent.line good :: rest)
      = ⟨(bad.map fun _ => [p, numberErrMsg]).flatten ++ [p], .value q, rest⟩ := by
  induction bad with
  | nil => simpa using number_reader_value p good q rest hge hgp
  | cons s bs ih =>
    obtain ⟨h1, h2⟩ := hbad s (List.mem_cons_self s bs)
    have ihh := ih fun t ht => hbad t (List.mem_cons_of_mem s ht)
    simp only [List.map_cons, List.cons_append, List.flatten]
    simp [get_valid_number, h1, h2, ihh]

/-- C4 witness: two invalid lines (`abc`, `1.2.3`) then ` 3 `, which strips
and parses to `3`: two error messages, one returned value. -/
theorem number_reader_retries_witness :
    get_valid_number prompt1
        [ReadEvent.line "abc", ReadEvent.line "1.2.3", ReadEvent.line " 3 "]
      = ⟨[prompt1, numberErrMsg, prompt1, numberErrMsg, prompt1], .value 3, []⟩ := by
  have h := number_reader_retries prompt1 ["abc", "1.2.3"] " 3 " 3 []
    (by decide) (by decide) (by decide)
  simpa using h

/-- C5: the operator reader returns the stripped line exactly when it is
one of `+`, `-`, `*`, `/` (so `" + "` is accepted as `+`); any other
non-exit line makes it print the error listing the valid operators and
re-prompt, behaving on the remaining input as a fresh call. -/
theorem operator_reader_spec (s : String) (rest : List ReadEvent) :
    (pyStrip s ∈ valid_operators →
      get_valid_operator (.line s :: rest) = ⟨[opPrompt], .value (pyStrip s), rest⟩) ∧
    (pyStrip s ∉ valid_operators → pyLower (pyStrip s) ∉ exitKeywords →
      get_valid_operator (.line s :: rest)
        = ⟨opPrompt :: opErrMsg :: (get_valid_operator rest).prints,
           (get_valid_operator rest).outcome, (get_valid_operator rest).rest⟩) := by
  constructor
  · exact operator_reader_value s rest
  · intro hmem hexit
    simp [get_valid_operator, hmem, hexit]

/-- C5 witness: `" + "` is accepted as `+`; `%` draws the error and a
re-prompt. -/
theorem operator_reader_spec_witness :
    get_valid_operator [ReadEvent.line " + "] = ⟨[opPrompt], .value "+", []⟩ ∧
    get_valid_operator [ReadEvent.line "%"]
      = ⟨[opPrompt, opErrMsg, opPrompt], .eofError, []⟩ := by
  constructor
  · have h := (operator_reader_spec " + " []).1 (by decide)
    rw [h]
    decide
  · have h := (operator_reader_spec "%" []).2 (by decide) (by decide)
    rw [h]
    decide

end Calculator

namespace Calculator

/-- C6: an input whose stripped, lowercased form is an exit keyword makes
the number reader and the operator reader return the exit sentinel with no
value, and a session seeing one terminates at once: its whole output is
the banner, the one prompt, and the exit message — no further prompts,
whatever input might follow. -/
theorem exit_keyword_spec (p s : String) (rest : List ReadEvent)
    (h : pyLower (pyStrip s) ∈ exitKeywords) :
    get_valid_number p (.line s :: rest) = ⟨[p, numberExitMsg], .exitNone, rest⟩ ∧
    get_valid_operator (.line s :: rest) = ⟨[opPrompt, opExitMsg], .exitNone, rest⟩ ∧
    run (.line s :: rest) = ⟨banner ++ [prompt1, numberExitMsg], 0⟩ := by
  have h1 : get_valid_number prompt1 (.line s :: rest)
      = ⟨[prompt1, numberExitMsg], .exitNone, rest⟩ := by
    simp [get_valid_number, h]
  refine ⟨by simp [get_valid_number, h], by simp [get_valid_operator, h], ?_⟩
  unfold run main_calculator
  simp only [List.length_cons, loopCalc, h1]

/-- C6 witness: the uppercase keyword `QUIT` at the first prompt, with
more input pending that is never read. -/
theorem exit_keyword_spec_witness :
    get_valid_number prompt2 [ReadEvent.line "QUIT", ReadEvent.line "77"]
      = ⟨[prompt2, numberExitMsg], .exitNone, [ReadEvent.line "77"]⟩ ∧
    run [ReadEvent.line "QUIT", ReadEvent.line "77"]
      = ⟨banner ++ [prompt1, numberExitMsg], 0⟩ := by
  have h := exit_keyword_spec prompt2 "QUIT" [ReadEvent.line "77"] (by decide)
  exact ⟨h.1, (exit_keyword_spec prompt1 "QUIT" [ReadEvent.line "77"] (by decide)).2.2⟩

/-- C7: when the divisor is near zero, the division error string is
displayed inside the echoed result line in place of a numeric result, the
session loop is not ended by it, and the continue question is asked
immediately afterwards, exactly as after a successful evaluation. -/
theorem div_error_continues (s1 s2 s3 : String) (a b : ℚ) (rest : List ReadEvent)
    (h1e : pyLower (pyStrip s1) ∉ exitKeywords) (h1p : pyFloat (pyStrip s1) = some a)
    (h2 : pyStrip s2 = "/")
    (h3e : pyLower (pyStrip s3) ∉ exitKeywords) (h3p : pyFloat (pyStrip s3) = some b)
    (hb : |b| < 1 / 1000000000) :
    ∃ tail : List String,
      (run (.line s1 :: .line s2 :: .line s3 :: rest)).output
        = banner ++ [prompt1, opPrompt, prompt2,
            resultLine a "/" b (.err divZeroMsg), continuePrompt] ++ tail ∧
      (run (.line s1 :: .line s2 :: .line s3 :: rest)).exitCode = 0 := by
  have hr1 := number_reader_value prompt1 s1 a (.line s2 :: .line s3 :: rest) h1e h1p
  have hr2 : get_valid_operator (ReadEvent.line s2 :: ReadEvent.line s3 :: rest)
      = ⟨[opPrompt], .value "/", .line s3 :: rest⟩ := by
    have hv := operator_reader_value s2 (.line s3 :: rest) (by rw [h2]; decide)
    rw [h2] at hv
    exact hv
  have hr3 := number_reader_value prompt2 s3 b rest h3e h3p
  have hcalc : calculate a "/" b = .err divZeroMsg := by
    unfold calculate
    rw [if_neg (by decide), if_neg (by decide), if_neg (by decide), if_pos rfl, if_pos hb]
  unfold run main_calculator
  generalize (ReadEvent.line s1 :: ReadEvent.line s2 :: ReadEvent.line s3 :: rest).length = m
  simp only [loopCalc, hr1, hr2, hr3, hcalc]
  rcases hA : askContinue rest with ⟨ps, rest2⟩ | ps | ps
  · rcases hL : loopCalc m rest2 with qs | qs
    · exact ⟨ps ++ qs, by simp [hL], by simp [hL]⟩
    · exact ⟨ps ++ qs ++ [eofReport], by simp [hL], by simp [hL]⟩
  · exact ⟨ps, by simp, by simp⟩
  · exact ⟨ps ++ [eofReport], by simp, by simp⟩

/-- C7 witness: the session `5`, `/`, `0`, then `n`: the result line holds
the division error and the continue question still follows it. -/
theorem div_error_continues_witness :
    ∃ tail : List String,
      (run [ReadEvent.line "5", ReadEvent.line "/", ReadEvent.line "0",
          ReadEvent.line "n"]).output
        = banner ++ [prompt1, opPrompt, prompt2,
            resultLine 5 "/" 0 (.err divZeroMsg), continuePrompt] ++ tail ∧
      (run [ReadEvent.line "5", ReadEvent.line "/", ReadEvent.line "0",
          ReadEvent.line "n"]).exitCode = 0 :=
  div_error_continues "5" "/" "0" 5 0 [ReadEvent.line "n"]
    (by decide) (by decide) (by decide) (by decide) (by decide) (by decide)

/-- C8: every termination path of the process — exit keyword, negative
continue answer, interrupt, or an error escaping the session loop — ends
with exit status 0; an escaping error is caught once at top level and
reported by appending exactly one report line to the output. -/
theorem top_level_exit (events : List ReadEvent) :
    (run events).exitCode = 0 ∧
    (∀ ps, main_calculator events = .eofEscape ps → (run events).output = ps ++ [eofReport]) ∧
    (∀ ps, main_calculator events = .done ps → (run events).output = ps) := by
  rcases h : main_calculator events with ps | ps <;>
    refine ⟨by simp [run, h], fun qs hq => ?_, fun qs hq => ?_⟩ <;>
    (try cases hq) <;> simp [run, h]

/-- C8 witness: the empty input stream ends in the reported `EOFError` and
still exits with status 0. -/
theorem top_level_exit_witness :
    (run []).exitCode = 0 ∧ (run []).output = (banner ++ [prompt1]) ++ [eofReport] :=
  ⟨(top_level_exit []).1, (top_level_exit []).2.1 (banner ++ [prompt1]) (by decide)⟩

/-- C10: end-of-file is caught by neither reader — their handlers cover
only parse failures and keyboard interrupts — so an EOF at a prompt
escapes the session loop to the top-level handler, is reported as an
unexpected error rather than producing the farewell message, and the
process still exits with status 0. -/
theorem eof_uncaught (p : String) :
    get_valid_number p [] = ⟨[p], .eofError, []⟩ ∧
    get_valid_operator [] = ⟨[opPrompt], .eofError, []⟩ ∧
    run [] = ⟨banner ++ [prompt1, eofReport], 0⟩ ∧
    farewellMsg ∉ (run []).output :=
  ⟨rfl, rfl, by decide, by decide⟩

end Calculator
